import Mathlib

/-!
Shallow embedding of the ZooKeeper k8s operator charm
(`src/charm.py`, `src/events/upgrade.py`), together with models of the
cluster-state predicates and managers whose modules are not part of the
sources (`core/cluster.py`, `managers/quorum.py`, `managers/config.py`):
those are modelled from the specification (sections 4.1 to 4.3 and 6).
-/

namespace ZkCharm

/-- One ensemble member (peer-relation unit) with its unit-scope data bag
fields, as read by `core.cluster.ClusterState`.  `unified` models the
`"unified" == "true"` flag, `quorumField` the unit's reported `quorum`
string, `passwordRotated` the `"password-rotated" == "true"` flag. -/
structure UnitState where
  unitId : Nat
  address : Option String
  started : Bool
  unified : Bool
  quorumField : String
  passwordRotated : Bool
deriving DecidableEq, Repr

/-- Application-scope (cluster) data bag; single writer is the leader.
`membership` models the set of keys `str(unit_id) -> "added"`;
`switchingEncryption` the `"switching-encryption"` flag; `tls` the
"certificate relationship present" boolean consumed from the certificate
collaborator; `credentialsSet` whether the internal user credentials
exist. -/
structure ClusterData where
  quorum : String
  switchingEncryption : Bool
  rotatePasswords : Bool
  membership : List Nat
  tls : Bool
  credentialsSet : Bool
deriving DecidableEq, Repr

/-- Data published on a client relation by `update_client_data`. -/
structure PublishedData where
  uris : String
  endpoints : String
  tls : String
  username : String
  password : String
  chroot : String
deriving DecidableEq, Repr

/-- A client-facing related application (`self.state.clients`):
its identity fields, its provisioned password (absent means ACLs not yet
added) and the data currently written on its relation. -/
structure ClientState where
  username : String
  chroot : String
  password : Option String
  published : Option PublishedData
deriving DecidableEq, Repr

/-- The rendered on-disk server configuration.  Modelled from the spec:
`managers/config.py` is not among the sources; section 4.3 specifies the
materializer as a pure function of the coordinator-approved membership
set, the quorum mode and the encryption toggles. -/
structure RenderedConfig where
  serverList : List Nat
  quorumMode : String
  tlsOn : Bool
  portUnification : Bool
deriving DecidableEq, Repr

/-- The whole state visible to one charm unit: its own identity, the
peer-relation unit data bags, the application data bag, the client
relations, and the applied on-disk configuration. -/
structure CharmState where
  ownUnit : Nat
  isLeader : Bool
  workloadAlive : Bool
  peerRelation : Bool
  units : List UnitState
  cluster : ClusterData
  clients : List ClientState
  appliedConfig : Option RenderedConfig
deriving DecidableEq, Repr

/-- The hook events dispatched to `_on_cluster_relation_changed` and
`update_quorum`; `relationDeparted` carries `event.departing_unit`. -/
inductive HookEvent where
  | relationChanged
  | relationJoined
  | relationDeparted (departingUnit : Option Nat)
  | leaderElected
  | configChangedEvent
  | updateStatus
deriving DecidableEq, Repr

/-- `getattr(event, "departing_unit", None) == self.unit`. -/
def departing_is_self (e : HookEvent) (s : CharmState) : Bool :=
  match e with
  | .relationDeparted (some d) => d == s.ownUnit
  | _ => false

/-- `isinstance(event, (RelationDepartedEvent, LeaderElectedEvent))`. -/
def recompute_trigger (e : HookEvent) : Bool :=
  match e with
  | .relationDeparted _ => true
  | .leaderElected => true
  | _ => false

-- ### State-store write helpers (key-value updates on the app data bag)

/-- Write the membership keys of the app data bag. -/
def withMembership (s : CharmState) (m : List Nat) : CharmState :=
  { s with cluster := { s.cluster with membership := m } }

/-- Write the `quorum` key of the app data bag. -/
def withQuorum (s : CharmState) (q : String) : CharmState :=
  { s with cluster := { s.cluster with quorum := q } }

/-- Write the `switching-encryption` key of the app data bag
(the empty string clears it). -/
def withSwitching (s : CharmState) (b : Bool) : CharmState :=
  { s with cluster := { s.cluster with switchingEncryption := b } }

/-- `self.state.cluster.update({str(unit_id): "added"})`: a key-value
merge, so an id already present is left in place. -/
def add_member (m : List Nat) (i : Nat) : List Nat :=
  if i ∈ m then m else m ++ [i]

-- ### Readiness / stability predicates
-- `core/cluster.py` is not among the sources; these are modelled from the
-- spec, section 4.2, which defines them as derived booleans recomputed
-- from current state on every access.

/-- The units that have reported `state == "started"`. -/
def started_units (l : List UnitState) : List UnitState :=
  l.filter (fun u => u.started)

/-- Modelled from the spec: `stale_quorum` — quorum is stale when the
number of shared membership entries differs from the number of nodes that
have reported started. -/
def stale_quorum (s : CharmState) : Bool :=
  decide (s.cluster.membership.length ≠ (started_units s.units).length)

/-- Modelled from the spec: `all_units_related` — every topology member
has published its network address. -/
def all_units_related (s : CharmState) : Bool :=
  s.units.all (fun u => u.address.isSome)

/-- Modelled from the spec: `all_units_unified` — every node's `unified`
flag is true. -/
def all_units_unified (s : CharmState) : Bool :=
  s.units.all (fun u => u.unified)

/-- Modelled from the spec: `all_units_quorum` — every node's reported
`quorum` field equals the cluster's current target mode. -/
def all_units_quorum (s : CharmState) : Bool :=
  s.units.all (fun u => u.quorumField == s.cluster.quorum)

/-- Modelled from the spec: `healthy` — all nodes report started. -/
def healthy (s : CharmState) : Bool :=
  s.units.all (fun u => u.started)

/-- Modelled from the spec: `stable` — no stale quorum, all units
related, and no encryption switch in progress or all-units-quorum already
satisfied. -/
def stable (s : CharmState) : Bool :=
  !stale_quorum s && all_units_related s
    && (!s.cluster.switchingEncryption || all_units_quorum s)

/-- Modelled from the spec: `ready` — the master gate before permitting
client-facing credential/connection info to be published (section 4.2
names `stable` as that gate). -/
def ready (s : CharmState) : Bool :=
  stable s

/-- The fold step selecting the unit with the lowest unit id. -/
def minStep (acc : Option UnitState) (u : UnitState) : Option UnitState :=
  match acc with
  | none => some u
  | some v => if u.unitId < v.unitId then some u else some v

/-- Lowest unit id of a unit list. -/
def choose_min (l : List UnitState) : Option UnitState :=
  l.foldl minStep none

/-- Modelled from the spec: `init_leader` — the node with the lowest
unit id (section 4.1, step 1). -/
def init_leader (s : CharmState) : Option UnitState :=
  choose_min s.units

-- ### Config materializer (managers/config.py, modelled from the spec)

/-- Modelled from the spec: the materializer renders the server list,
encryption toggles and port-unification flag as a pure function of the
coordinator-approved state (section 4.3). -/
def render (s : CharmState) : RenderedConfig :=
  { serverList := s.cluster.membership
    quorumMode := s.cluster.quorum
    tlsOn := s.cluster.tls
    portUnification := s.cluster.switchingEncryption }

/-- Modelled from the spec: `ConfigManager.config_changed` — true when
the rendered output differs from the currently-applied output
(section 4.3, change-detection). -/
def config_changed (s : CharmState) : Bool :=
  decide (s.appliedConfig ≠ some (render s))

-- ### Quorum manager (managers/quorum.py, modelled from the spec)

/-- The full desired membership set of a unit list: every started unit
is mapped to "added". -/
def desired_members (l : List UnitState) : List Nat :=
  (started_units l).map (fun u => u.unitId)

/-- Modelled from the spec: `QuorumManager.update_cluster` — recomputes
the full desired membership set (section 4.1, step 2; the returned
key-value delta maps each started unit id to "added" and the departed
ones to the empty string, so writing it replaces the membership set). -/
def update_cluster (s : CharmState) : List Nat :=
  desired_members s.units

-- ### update_client_data (charm.py, lines 326-344)

/-- Comma-joined addresses of the started servers. -/
def endpoints_string (s : CharmState) : String :=
  String.intercalate "," ((started_units s.units).filterMap (fun u => u.address))

/-- Modelled from the spec: the connection data computed for one client
(section 6) — URIs, endpoint list, TLS flag, username/password, chroot. -/
def client_payload (s : CharmState) (c : ClientState) : PublishedData :=
  { uris := endpoints_string s ++ c.chroot
    endpoints := endpoints_string s
    tls := if s.cluster.tls then "enabled" else "disabled"
    username := c.username
    password := c.password.getD ""
    chroot := c.chroot }

/-- Write one client's relation data when its password is provisioned,
skip it otherwise (lines 332-344). -/
def publish_one (s : CharmState) (c : ClientState) : ClientState :=
  if c.password.isSome then { c with published := some (client_payload s c) } else c

/-- `ZooKeeperCharm.update_client_data`: returns unless `ready` and
leader; writes the connection data of every client whose password is
already provisioned, skipping clients with no password. -/
def update_client_data (s : CharmState) : CharmState :=
  if ready s && s.isLeader then
    { s with clients := s.clients.map (publish_one s) }
  else s

-- ### update_quorum (charm.py, lines 273-324)

/-- Lines 284-285: set the init quorum leader to "added" as soon as it
reports started. -/
def mark_init_leader (s : CharmState) : CharmState :=
  match init_leader s with
  | some u =>
      if u.started then withMembership s (add_member s.cluster.membership u.unitId) else s
  | none => s

/-- Lines 287-299: on stale quorum, departure/leader-election events, or
a healthy cluster, recompute and write the full desired membership. -/
def maybe_recompute (e : HookEvent) (s : CharmState) : CharmState :=
  if stale_quorum s || recompute_trigger e || healthy s then
    withMembership s (update_cluster s)
  else s

/-- Lines 310-315: flip the target quorum mode according to the presence
of the certificate relationship. -/
def set_quorum_mode (s : CharmState) : CharmState :=
  if s.cluster.tls then withQuorum s "ssl" else withQuorum s "non-ssl"

/-- Lines 308-322: the encryption two-phase step — once all units are
unified, flip the target mode; once all units report the new mode, clear
the switching-encryption flag. -/
def encryption_phase (s : CharmState) : CharmState :=
  if all_units_unified s then
    if all_units_quorum (set_quorum_mode s) then withSwitching (set_quorum_mode s) false
    else set_quorum_mode s
  else s

/-- `ZooKeeperCharm.update_quorum` (lines 273-324): leader-only guard,
init-leader marking, membership recomputation, stability gate, the
encryption-mode state machine, and the final client-data write. -/
def update_quorum (e : HookEvent) (s : CharmState) : CharmState :=
  if !s.isLeader || departing_is_self e s then s
  else
    if !stable (maybe_recompute e (mark_init_leader s)) then
      maybe_recompute e (mark_init_leader s)
    else update_client_data (encryption_phase (maybe_recompute e (mark_init_leader s)))

-- ### init_server and the relation-changed handler (charm.py 134-166, 219-271)

/-- The unit data bag of this node itself (`self.state.unit_server`). -/
def unit_server (s : CharmState) : Option UnitState :=
  s.units.find? (fun u => u.unitId == s.ownUnit)

/-- `self.state.unit_server.started`. -/
def unit_started (s : CharmState) : Bool :=
  (unit_server s).elim false (fun u => u.started)

/-- Rewrite this node's own unit data bag. -/
def set_own_unit (s : CharmState) (f : UnitState → UnitState) : CharmState :=
  { s with units := s.units.map (fun u => if u.unitId == s.ownUnit then f u else u) }

/-- Modelled from the spec: `next_server` — nodes start in ascending
unit-id order (section 4.1, step 1), so the next server to start is the
lowest-id unit that has not yet reported started. -/
def next_server (s : CharmState) : Option UnitState :=
  choose_min (s.units.filter (fun u => !u.started))

/-- `ZooKeeperCharm.init_server` (lines 219-271): wait for credentials,
for all units to be related and for this unit's turn; then write the
rendered configuration, start the workload and flag the unit started
with its current `unified`/`quorum` values. -/
def init_server (s : CharmState) : CharmState :=
  if !s.cluster.credentialsSet then s
  else if !all_units_related s then s
  else if (next_server s).elim false (fun u => u.unitId != s.ownUnit) then s
  else
    set_own_unit { s with appliedConfig := some (render s) } (fun u =>
      { u with
        started := true
        unified := s.cluster.switchingEncryption
        quorumField := s.cluster.quorum })

/-- Outcome of one dispatch of `_on_cluster_relation_changed`: the final
state, whether the event was deferred, and whether the restart-lock
acquisition signal was emitted. -/
structure HandlerResult where
  state : CharmState
  deferred : Bool
  lockRequested : Bool
deriving DecidableEq, Repr

/-- The state at the restart-lock decision point of
`_on_cluster_relation_changed`: after the server-init attempt (line 146)
and the quorum update (line 149). -/
def lock_decision_state (e : HookEvent) (s : CharmState) : CharmState :=
  update_quorum e (if unit_started s then s else init_server s)

/-- `ZooKeeperCharm._on_cluster_relation_changed` (lines 134-166):
defer while the workload is not alive; return without peer relation;
attempt server startup, update the quorum, skip the dying unit's own
restart, emit the restart-lock signal when the materialized config
changed or encryption is switching (and the server has started), and
defer single-unit switching events. -/
def on_cluster_relation_changed (e : HookEvent) (s : CharmState) : HandlerResult :=
  if !s.workloadAlive then { state := s, deferred := true, lockRequested := false }
  else if !s.peerRelation then { state := s, deferred := false, lockRequested := false }
  else if departing_is_self e (lock_decision_state e s) then
    { state := lock_decision_state e s, deferred := false, lockRequested := false }
  else
    { state :=
        if config_changed (lock_decision_state e s) then
          { lock_decision_state e s with
            appliedConfig := some (render (lock_decision_state e s)) }
        else lock_decision_state e s
      deferred :=
        (lock_decision_state e s).cluster.switchingEncryption
          && (lock_decision_state e s).units.length == 1
      lockRequested :=
        (config_changed (lock_decision_state e s)
            || (lock_decision_state e s).cluster.switchingEncryption)
          && unit_started (lock_decision_state e s) }

-- ### The restart callback (charm.py, lines 188-215)

/-- Outcome of one invocation of `ZooKeeperCharm._restart`. -/
structure RestartResult where
  state : CharmState
  deferred : Bool
  restarted : Bool
deriving DecidableEq, Repr

/-- `ZooKeeperCharm._restart` (lines 188-215): defer while the cluster
is not stable; otherwise restart the workload, publish the post-restart
unit-scope flags (`unified`, `quorum`, `password-rotated`) and write the
client data. -/
def restart_handler (s : CharmState) : RestartResult :=
  if !stable s then { state := s, deferred := true, restarted := false }
  else
    let s1 := set_own_unit s (fun u =>
      { u with
        unified := s.cluster.switchingEncryption
        quorumField := s.cluster.quorum
        passwordRotated := s.cluster.rotatePasswords })
    { state := update_client_data s1, deferred := false, restarted := true }

-- ### The upgrade pre/post checks (events/upgrade.py)

/-- The exceptions the quorum probe (`ZooKeeperManager` / kazoo client)
can raise inside `pre_upgrade_check`. -/
inductive ZkExc where
  | quorumLeaderNotFound
  | connectionClosed
  | other (msg : String)
deriving DecidableEq, Repr

instance (α β : Type) [DecidableEq α] [DecidableEq β] : DecidableEq (Except α β) := fun a b =>
  match a, b with
  | .ok x, .ok y => decidable_of_iff (x = y) (by simp)
  | .error x, .error y => decidable_of_iff (x = y) (by simp)
  | .ok _, .error _ => isFalse (by simp)
  | .error _, .ok _ => isFalse (by simp)

/-- The outcomes of the three quorum-probe reads used by the pre-check:
`members_broadcasting`, `len(server_members)` and `members_syncing`,
each of which can raise. -/
structure QuorumProbe where
  membersBroadcasting : Except ZkExc Bool
  serverMembersCount : Except ZkExc Nat
  membersSyncing : Except ZkExc Bool
deriving DecidableEq, Repr

/-- An exception escaping the `try` body of `pre_upgrade_check`: either
a probe exception or an explicitly raised `ClusterNotReadyError`. -/
inductive TryExc where
  | zk (e : ZkExc)
  | clusterNotReady (message cause : String)
deriving DecidableEq, Repr

/-- The errors `pre_upgrade_check` itself raises. -/
inductive UpgradeFailure where
  | clusterNotReady (message cause : String)
  | kubernetesClientError (message cause : String)
deriving DecidableEq, Repr

/-- Result of the Kubernetes StatefulSet patch attempted when idle. -/
inductive KubePatch where
  | ok
  | forbidden
  | apiError (msg : String)
deriving DecidableEq, Repr

/-- `ZKUpgradeEvents._set_rolling_update_partition` (lines 162-178):
an `ApiError` is converted to a `KubernetesClientError`, with the
`juju trust` hint on a 403. -/
def set_rolling_update_partition (r : KubePatch) : Except UpgradeFailure Unit :=
  match r with
  | .ok => Except.ok ()
  | .forbidden =>
      Except.error (.kubernetesClientError "Kubernetes StatefulSet patch failed" "`juju trust` needed")
  | .apiError m =>
      Except.error (.kubernetesClientError "Kubernetes StatefulSet patch failed" m)

/-- The message every `ClusterNotReadyError` of the pre-check carries. -/
def preCheckMessage : String := "Pre-upgrade check failed and cannot safely upgrade"

/-- The `try` body of `pre_upgrade_check` (lines 114-134), with Python's
short-circuit evaluation: broadcasting gate, member-count gate, syncing
gate, then the charm stability gate; an explicitly raised
`ClusterNotReadyError` also escapes this body into the `except` clauses
below it. -/
def pre_check_try_body (p : QuorumProbe) (s : CharmState) : Except TryExc Unit :=
  match p.membersBroadcasting with
  | .error e => Except.error (.zk e)
  | .ok b =>
    if !b then
      Except.error (.clusterNotReady preCheckMessage
        "Not all application units are connected and broadcasting in the quorum")
    else
      match p.serverMembersCount with
      | .error e => Except.error (.zk e)
      | .ok n =>
        if n != s.units.length then
          Except.error (.clusterNotReady preCheckMessage
            "Not all application units are connected and broadcasting in the quorum")
        else
          match p.membersSyncing with
          | .error e => Except.error (.zk e)
          | .ok sy =>
            if sy then
              Except.error (.clusterNotReady preCheckMessage "Some quorum members are syncing data")
            else if !stable s then
              Except.error (.clusterNotReady preCheckMessage "Charm has not finished initialising")
            else Except.ok ()

/-- `ZKUpgradeEvents.pre_upgrade_check` (lines 108-146): the partition
patch when idle, then the `try` body under the `except` clauses — a
`QuorumLeaderNotFoundError` and a `ConnectionClosedError` get their
specific causes, and every other exception escaping the body (including
the explicitly raised `ClusterNotReadyError`s, which the blanket
`except Exception` also matches) is converted to the generic
"Unknown error" cause. -/
def pre_upgrade_check (idle : Bool) (kube : KubePatch) (p : QuorumProbe) (s : CharmState) :
    Except UpgradeFailure Unit :=
  match (if idle then set_rolling_update_partition kube else Except.ok ()) with
  | .error e => Except.error e
  | .ok _ =>
    match pre_check_try_body p s with
    | .ok _ => Except.ok ()
    | .error (.zk .quorumLeaderNotFound) =>
        Except.error (.clusterNotReady preCheckMessage "Quorum leader not found")
    | .error (.zk .connectionClosed) =>
        Except.error (.clusterNotReady preCheckMessage "Unable to connect to the cluster")
    | .error _ =>
        Except.error (.clusterNotReady preCheckMessage "Unknown error")

/-- What one attempt of `post_upgrade_check` observes: the probe and
charm state read by the pre-check, and `self.charm.workload.healthy`. -/
structure AttemptObs where
  idle : Bool
  kube : KubePatch
  probe : QuorumProbe
  charm : CharmState
  workloadHealthy : Bool
deriving DecidableEq, Repr

/-- The body of `ZKUpgradeEvents.post_upgrade_check` (lines 98-106):
the pre-check followed by the workload health gate. -/
def post_upgrade_check_body (o : AttemptObs) : Except UpgradeFailure Unit :=
  match pre_upgrade_check o.idle o.kube o.probe o.charm with
  | .error e => Except.error e
  | .ok _ =>
    if o.workloadHealthy then Except.ok ()
    else
      Except.error (.clusterNotReady "Post-upgrade check failed and cannot safely upgrade"
        "Container service not ruunning")

/-- The `tenacity` retry wrapper `retry(stop=stop_after_attempt(n+1),
reraise=True)`: run attempt `a`; on an exception, retry with the next
attempt while attempts remain, reraising the last exception. -/
def retryReraise (f : Nat → Except UpgradeFailure Unit) (a : Nat) : Nat → Except UpgradeFailure Unit
  | 0 => f a
  | n + 1 =>
    match f a with
    | .ok u => Except.ok u
    | .error _ => retryReraise f (a + 1) n

/-- `ZKUpgradeEvents.post_upgrade_check` with its decorator
`@retry(stop=stop_after_attempt(5), wait=wait_random(min=1, max=5),
reraise=True)`: attempts 1 through 5 of the check body, where attempt
`i` observes `obs i`. -/
def post_upgrade_check (obs : Nat → AttemptObs) : Except UpgradeFailure Unit :=
  retryReraise (fun i => post_upgrade_check_body (obs i)) 1 4

-- ### Concrete states used by witnesses and counterexamples

/-- A stable two-node ensemble with the certificate relation present,
mid encryption switch, both nodes unified and already on `ssl`. -/
def exSwitchDone : CharmState :=
  { ownUnit := 0, isLeader := true, workloadAlive := true, peerRelation := true
    units :=
      [ { unitId := 0, address := some "host-0", started := true, unified := true,
          quorumField := "ssl", passwordRotated := false },
        { unitId := 1, address := some "host-1", started := true, unified := true,
          quorumField := "ssl", passwordRotated := false } ]
    cluster := { quorum := "ssl", switchingEncryption := true, rotatePasswords := false,
                 membership := [0, 1], tls := true, credentialsSet := true }
    clients := [], appliedConfig := none }

/-- A single not-yet-started node whose materialized config differs from
the applied one and whose cluster is switching encryption. -/
def exNotStarted : CharmState :=
  { ownUnit := 0, isLeader := false, workloadAlive := true, peerRelation := true
    units :=
      [ { unitId := 0, address := some "host-0", started := false, unified := false,
          quorumField := "", passwordRotated := false } ]
    cluster := { quorum := "non-ssl", switchingEncryption := true, rotatePasswords := false,
                 membership := [], tls := false, credentialsSet := false }
    clients := [], appliedConfig := none }

/-- A started unit that has not yet published its address. -/
def exC4Unit : UnitState :=
  { unitId := 2, address := none, started := true, unified := false,
    quorumField := "", passwordRotated := false }

/-- A leader state that is stale, unrelated and unstable, whose init
leader has nevertheless started. -/
def exC4 : CharmState :=
  { ownUnit := 2, isLeader := true, workloadAlive := true, peerRelation := true
    units := [exC4Unit]
    cluster := { quorum := "default - non-ssl", switchingEncryption := false,
                 rotatePasswords := false, membership := [], tls := false,
                 credentialsSet := true }
    clients := [], appliedConfig := none }

/-- An unstable state: the lone unit has not published its address. -/
def exUnstable : CharmState :=
  { ownUnit := 0, isLeader := true, workloadAlive := true, peerRelation := true
    units :=
      [ { unitId := 0, address := none, started := false, unified := false,
          quorumField := "", passwordRotated := false } ]
    cluster := { quorum := "default - non-ssl", switchingEncryption := false,
                 rotatePasswords := false, membership := [], tls := false,
                 credentialsSet := true }
    clients := [], appliedConfig := none }

/-- A ready single-node leader state with one provisioned client and one
unprovisioned client. -/
def exReady : CharmState :=
  { ownUnit := 0, isLeader := true, workloadAlive := true, peerRelation := true
    units :=
      [ { unitId := 0, address := some "host-0", started := true, unified := false,
          quorumField := "non-ssl", passwordRotated := false } ]
    cluster := { quorum := "non-ssl", switchingEncryption := false, rotatePasswords := false,
                 membership := [0], tls := false, credentialsSet := true }
    clients :=
      [ { username := "relation-3", chroot := "/kafka", password := some "pw3", published := none },
        { username := "relation-4", chroot := "/app", password := none, published := none } ]
    appliedConfig := none }

/-- A probe whose first attempts fail transiently: broadcasting is false
on attempts below 3 and the cluster is healthy from attempt 3 on. -/
def exObs (i : Nat) : AttemptObs :=
  { idle := false, kube := .ok
    probe := { membersBroadcasting := Except.ok (decide (3 ≤ i)),
               serverMembersCount := Except.ok 1,
               membersSyncing := Except.ok false }
    charm := exReady
    workloadHealthy := true }

-- ## Basic lemmas about the state-store writes

theorem withMembership_units (s : CharmState) (m : List Nat) :
    (withMembership s m).units = s.units := rfl

theorem withMembership_ownUnit (s : CharmState) (m : List Nat) :
    (withMembership s m).ownUnit = s.ownUnit := rfl

theorem withMembership_isLeader (s : CharmState) (m : List Nat) :
    (withMembership s m).isLeader = s.isLeader := rfl

theorem withMembership_quorum (s : CharmState) (m : List Nat) :
    (withMembership s m).cluster.quorum = s.cluster.quorum := rfl

theorem withMembership_switching (s : CharmState) (m : List Nat) :
    (withMembership s m).cluster.switchingEncryption = s.cluster.switchingEncryption := rfl

theorem withMembership_tls (s : CharmState) (m : List Nat) :
    (withMembership s m).cluster.tls = s.cluster.tls := rfl

theorem withMembership_membership (s : CharmState) (m : List Nat) :
    (withMembership s m).cluster.membership = m := rfl

theorem withMembership_self (s : CharmState) :
    withMembership s s.cluster.membership = s := rfl

theorem withQuorum_quorum (s : CharmState) (q : String) :
    (withQuorum s q).cluster.quorum = q := rfl

theorem withQuorum_self (s : CharmState) (q : String) (h : s.cluster.quorum = q) :
    withQuorum s q = s := by
  subst h; rfl

theorem withSwitching_self (s : CharmState) (b : Bool)
    (h : s.cluster.switchingEncryption = b) : withSwitching s b = s := by
  subst h; rfl

theorem withQuorum_units (s : CharmState) (q : String) :
    (withQuorum s q).units = s.units := rfl

theorem withQuorum_switching (s : CharmState) (q : String) :
    (withQuorum s q).cluster.switchingEncryption = s.cluster.switchingEncryption := rfl

theorem withQuorum_tls (s : CharmState) (q : String) :
    (withQuorum s q).cluster.tls = s.cluster.tls := rfl

theorem withQuorum_membership (s : CharmState) (q : String) :
    (withQuorum s q).cluster.membership = s.cluster.membership := rfl

theorem withSwitching_units (s : CharmState) (b : Bool) :
    (withSwitching s b).units = s.units := rfl

theorem withSwitching_quorum (s : CharmState) (b : Bool) :
    (withSwitching s b).cluster.quorum = s.cluster.quorum := rfl

theorem withSwitching_switching (s : CharmState) (b : Bool) :
    (withSwitching s b).cluster.switchingEncryption = b := rfl

theorem withSwitching_tls (s : CharmState) (b : Bool) :
    (withSwitching s b).cluster.tls = s.cluster.tls := rfl

theorem withSwitching_membership (s : CharmState) (b : Bool) :
    (withSwitching s b).cluster.membership = s.cluster.membership := rfl

theorem add_member_mem (m : List Nat) (i : Nat) : i ∈ add_member m i := by
  unfold add_member
  split
  · assumption
  · simp

theorem add_member_noop (m : List Nat) (i : Nat) (h : i ∈ m) : add_member m i = m := by
  simp [add_member, h]

-- ## Lemmas about the minimum fold and the init leader

theorem choose_min_from_acc (l : List UnitState) (acc : Option UnitState) (u : UnitState)
    (h : l.foldl minStep acc = some u) : acc = some u ∨ u ∈ l := by
  induction l generalizing acc with
  | nil => exact Or.inl h
  | cons a t ih =>
    rcases ih (minStep acc a) h with h1 | h1
    · cases acc with
      | none =>
        simp [minStep] at h1
        exact Or.inr (by simp [h1])
      | some v =>
        simp only [minStep] at h1
        split at h1
        · cases h1; exact Or.inr (by simp)
        · exact Or.inl h1
    · exact Or.inr (List.mem_cons_of_mem a h1)

theorem init_leader_mem (s : CharmState) (u : UnitState) (h : init_leader s = some u) :
    u ∈ s.units := by
  rcases choose_min_from_acc s.units none u h with h1 | h1
  · cases h1
  · exact h1

-- ## Lemmas about desired membership

theorem desired_members_length (l : List UnitState) :
    (desired_members l).length = (started_units l).length := by
  simp [desired_members]

theorem mem_desired_members (l : List UnitState) (u : UnitState)
    (h1 : u ∈ l) (h2 : u.started = true) : u.unitId ∈ desired_members l := by
  simp only [desired_members, started_units, List.mem_map]
  exact ⟨u, List.mem_filter.mpr ⟨h1, by simp [h2]⟩, rfl⟩

-- ## Predicate congruence under equal unit lists / cluster fields

theorem all_units_unified_congr (s t : CharmState) (hu : t.units = s.units) :
    all_units_unified t = all_units_unified s := by
  simp [all_units_unified, hu]

theorem all_units_related_congr (s t : CharmState) (hu : t.units = s.units) :
    all_units_related t = all_units_related s := by
  simp [all_units_related, hu]

theorem healthy_congr (s t : CharmState) (hu : t.units = s.units) :
    healthy t = healthy s := by
  simp [healthy, hu]

theorem all_units_quorum_congr (s t : CharmState) (hu : t.units = s.units)
    (hq : t.cluster.quorum = s.cluster.quorum) :
    all_units_quorum t = all_units_quorum s := by
  simp [all_units_quorum, hu, hq]

theorem stale_quorum_congr (s t : CharmState) (hu : t.units = s.units)
    (hm : t.cluster.membership = s.cluster.membership) :
    stale_quorum t = stale_quorum s := by
  simp [stale_quorum, hu, hm]

theorem stable_congr (s t : CharmState) (hu : t.units = s.units)
    (hc : t.cluster = s.cluster) : stable t = stable s := by
  simp [stable, stale_quorum, all_units_related, all_units_quorum, started_units, hu, hc]

theorem init_leader_congr (s t : CharmState) (hu : t.units = s.units) :
    init_leader t = init_leader s := by
  simp [init_leader, hu]

theorem update_cluster_congr (s t : CharmState) (hu : t.units = s.units) :
    update_cluster t = update_cluster s := by
  simp [update_cluster, hu]

theorem departing_is_self_congr (e : HookEvent) (s t : CharmState)
    (ho : t.ownUnit = s.ownUnit) : departing_is_self e t = departing_is_self e s := by
  cases e with
  | relationDeparted d => cases d <;> simp [departing_is_self, ho]
  | _ => rfl

-- ## Field preservation through the update_quorum steps

theorem mark_init_leader_units (s : CharmState) :
    (mark_init_leader s).units = s.units := by
  unfold mark_init_leader
  cases init_leader s with
  | none => rfl
  | some u => cases hu : u.started <;> simp [hu, withMembership]

theorem mark_init_leader_ownUnit (s : CharmState) :
    (mark_init_leader s).ownUnit = s.ownUnit := by
  unfold mark_init_leader
  cases init_leader s with
  | none => rfl
  | some u => cases hu : u.started <;> simp [hu, withMembership]

theorem mark_init_leader_isLeader (s : CharmState) :
    (mark_init_leader s).isLeader = s.isLeader := by
  unfold mark_init_leader
  cases init_leader s with
  | none => rfl
  | some u => cases hu : u.started <;> simp [hu, withMembership]

theorem mark_init_leader_quorum (s : CharmState) :
    (mark_init_leader s).cluster.quorum = s.cluster.quorum := by
  unfold mark_init_leader
  cases init_leader s with
  | none => rfl
  | some u => cases hu : u.started <;> simp [hu, withMembership]

theorem mark_init_leader_switching (s : CharmState) :
    (mark_init_leader s).cluster.switchingEncryption = s.cluster.switchingEncryption := by
  unfold mark_init_leader
  cases init_leader s with
  | none => rfl
  | some u => cases hu : u.started <;> simp [hu, withMembership]

theorem mark_init_leader_tls (s : CharmState) :
    (mark_init_leader s).cluster.tls = s.cluster.tls := by
  unfold mark_init_leader
  cases init_leader s with
  | none => rfl
  | some u => cases hu : u.started <;> simp [hu, withMembership]

theorem maybe_recompute_units (e : HookEvent) (s : CharmState) :
    (maybe_recompute e s).units = s.units := by
  unfold maybe_recompute
  split <;> rfl

theorem maybe_recompute_ownUnit (e : HookEvent) (s : CharmState) :
    (maybe_recompute e s).ownUnit = s.ownUnit := by
  unfold maybe_recompute
  split <;> rfl

theorem maybe_recompute_isLeader (e : HookEvent) (s : CharmState) :
    (maybe_recompute e s).isLeader = s.isLeader := by
  unfold maybe_recompute
  split <;> rfl

theorem maybe_recompute_quorum (e : HookEvent) (s : CharmState) :
    (maybe_recompute e s).cluster.quorum = s.cluster.quorum := by
  unfold maybe_recompute
  split <;> rfl

theorem maybe_recompute_switching (e : HookEvent) (s : CharmState) :
    (maybe_recompute e s).cluster.switchingEncryption = s.cluster.switchingEncryption := by
  unfold maybe_recompute
  split <;> rfl

theorem maybe_recompute_tls (e : HookEvent) (s : CharmState) :
    (maybe_recompute e s).cluster.tls = s.cluster.tls := by
  unfold maybe_recompute
  split <;> rfl

theorem set_quorum_mode_units (s : CharmState) :
    (set_quorum_mode s).units = s.units := by
  unfold set_quorum_mode
  split <;> rfl

theorem set_quorum_mode_ownUnit (s : CharmState) :
    (set_quorum_mode s).ownUnit = s.ownUnit := by
  unfold set_quorum_mode
  split <;> rfl

theorem set_quorum_mode_isLeader (s : CharmState) :
    (set_quorum_mode s).isLeader = s.isLeader := by
  unfold set_quorum_mode
  split <;> rfl

theorem set_quorum_mode_membership (s : CharmState) :
    (set_quorum_mode s).cluster.membership = s.cluster.membership := by
  unfold set_quorum_mode
  split <;> rfl

theorem set_quorum_mode_switching (s : CharmState) :
    (set_quorum_mode s).cluster.switchingEncryption = s.cluster.switchingEncryption := by
  unfold set_quorum_mode
  split <;> rfl

theorem set_quorum_mode_tls (s : CharmState) :
    (set_quorum_mode s).cluster.tls = s.cluster.tls := by
  unfold set_quorum_mode
  split <;> rfl

theorem set_quorum_mode_quorum (s : CharmState) :
    (set_quorum_mode s).cluster.quorum =
      (if s.cluster.tls then "ssl" else "non-ssl") := by
  unfold set_quorum_mode
  split <;> simp_all [withQuorum]

theorem encryption_phase_units (s : CharmState) :
    (encryption_phase s).units = s.units := by
  unfold encryption_phase
  split
  · split <;> simp [withSwitching, set_quorum_mode_units]
  · rfl

theorem encryption_phase_ownUnit (s : CharmState) :
    (encryption_phase s).ownUnit = s.ownUnit := by
  unfold encryption_phase
  split
  · split <;> simp [withSwitching, set_quorum_mode_ownUnit]
  · rfl

theorem encryption_phase_isLeader (s : CharmState) :
    (encryption_phase s).isLeader = s.isLeader := by
  unfold encryption_phase
  split
  · split <;> simp [withSwitching, set_quorum_mode_isLeader]
  · rfl

theorem encryption_phase_membership (s : CharmState) :
    (encryption_phase s).cluster.membership = s.cluster.membership := by
  unfold encryption_phase
  split
  · split <;> simp [withSwitching, set_quorum_mode_membership]
  · rfl

theorem encryption_phase_tls (s : CharmState) :
    (encryption_phase s).cluster.tls = s.cluster.tls := by
  unfold encryption_phase
  split
  · split <;> simp [withSwitching, set_quorum_mode_tls]
  · rfl

theorem update_client_data_units (s : CharmState) :
    (update_client_data s).units = s.units := by
  unfold update_client_data
  split <;> rfl

theorem update_client_data_cluster (s : CharmState) :
    (update_client_data s).cluster = s.cluster := by
  unfold update_client_data
  split <;> rfl

theorem update_client_data_ownUnit (s : CharmState) :
    (update_client_data s).ownUnit = s.ownUnit := by
  unfold update_client_data
  split <;> rfl

theorem update_client_data_isLeader (s : CharmState) :
    (update_client_data s).isLeader = s.isLeader := by
  unfold update_client_data
  split <;> rfl

-- ## Fixed-point lemmas for the update_quorum steps

theorem mark_init_leader_noop (t : CharmState)
    (h : ∀ u, init_leader t = some u → u.started = true → u.unitId ∈ t.cluster.membership) :
    mark_init_leader t = t := by
  unfold mark_init_leader
  cases hil : init_leader t with
  | none => rfl
  | some u =>
    cases hu : u.started with
    | false => simp [hu]
    | true =>
      simp only [hu, if_true]
      rw [add_member_noop _ _ (h u hil hu), withMembership_self]

theorem init_leader_marked (e : HookEvent) (s : CharmState) (u : UnitState)
    (h3 : init_leader s = some u) (h4 : u.started = true) :
    u.unitId ∈ (maybe_recompute e (mark_init_leader s)).cluster.membership := by
  have hm : u.unitId ∈ (mark_init_leader s).cluster.membership := by
    unfold mark_init_leader
    rw [h3]
    simp only [h4, if_true]
    rw [withMembership_membership]
    exact add_member_mem _ _
  unfold maybe_recompute
  split
  · rw [withMembership_membership]
    exact mem_desired_members _ u
      (by rw [mark_init_leader_units]; exact init_leader_mem s u h3) h4
  · exact hm

theorem maybe_recompute_fix (e : HookEvent) (s1 t : CharmState)
    (hu : t.units = s1.units)
    (hm : t.cluster.membership = (maybe_recompute e s1).cluster.membership) :
    maybe_recompute e t = t := by
  by_cases hc : (stale_quorum s1 || recompute_trigger e || healthy s1) = true
  · have hm2 : t.cluster.membership = update_cluster s1 := by
      rw [hm]
      unfold maybe_recompute
      rw [if_pos hc, withMembership_membership]
    have hut : update_cluster t = t.cluster.membership := by
      rw [update_cluster_congr s1 t hu, hm2]
    unfold maybe_recompute
    split
    · rw [hut]
      exact withMembership_self t
    · rfl
  · have hm2 : t.cluster.membership = s1.cluster.membership := by
      rw [hm]
      unfold maybe_recompute
      rw [if_neg hc]
    have hcond : (stale_quorum t || recompute_trigger e || healthy t) = false := by
      rw [stale_quorum_congr s1 t hu hm2, healthy_congr s1 t hu]
      simpa using hc
    unfold maybe_recompute
    simp [hcond]

theorem client_payload_congr (s t : CharmState) (hu : t.units = s.units)
    (htls : t.cluster.tls = s.cluster.tls) (c d : ClientState)
    (h1 : d.username = c.username) (h2 : d.chroot = c.chroot) (h3 : d.password = c.password) :
    client_payload t d = client_payload s c := by
  unfold client_payload endpoints_string
  rw [hu, htls, h1, h2, h3]

theorem publish_one_password (s : CharmState) (c : ClientState) :
    (publish_one s c).password = c.password := by
  unfold publish_one
  split <;> rfl

theorem publish_one_idem (s t : CharmState) (hu : t.units = s.units)
    (htls : t.cluster.tls = s.cluster.tls) (c : ClientState) :
    publish_one t (publish_one s c) = publish_one s c := by
  obtain ⟨cu, cch, cpw, cpub⟩ := c
  by_cases hp : cpw.isSome = true
  · simp only [publish_one, hp, if_true]
    congr 1
    exact congrArg some (client_payload_congr s t hu htls ⟨cu, cch, cpw, cpub⟩
      ⟨cu, cch, cpw, some (client_payload s ⟨cu, cch, cpw, cpub⟩)⟩ rfl rfl rfl)
  · simp only [publish_one, hp]
    simp [hp]

theorem update_client_data_idem (t : CharmState) :
    update_client_data (update_client_data t) = update_client_data t := by
  by_cases h : (ready t && t.isLeader) = true
  · have h2 : update_client_data t = { t with clients := t.clients.map (publish_one t) } := by
      unfold update_client_data
      rw [if_pos h]
    have hready : ready (update_client_data t) = ready t := by
      unfold ready
      exact stable_congr t _ (update_client_data_units t) (update_client_data_cluster t)
    have hcl : List.map (publish_one ({ t with clients := t.clients.map (publish_one t) } : CharmState))
        (t.clients.map (publish_one t)) = t.clients.map (publish_one t) := by
      rw [List.map_map]
      apply List.map_congr_left
      intro c _
      exact publish_one_idem t _ rfl rfl c
    rw [h2]
    unfold update_client_data
    rw [if_pos (show (ready ({ t with clients := t.clients.map (publish_one t) } : CharmState)
        && ({ t with clients := t.clients.map (publish_one t) } : CharmState).isLeader) = true from h)]
    rw [hcl]
  · have h2 : update_client_data t = t := by
      unfold update_client_data
      rw [if_neg h]
    rw [h2, h2]

-- ## Field preservation through update_quorum itself

theorem update_quorum_units (e : HookEvent) (s : CharmState) :
    (update_quorum e s).units = s.units := by
  unfold update_quorum
  split
  · rfl
  · split
    · rw [maybe_recompute_units, mark_init_leader_units]
    · rw [update_client_data_units, encryption_phase_units, maybe_recompute_units,
        mark_init_leader_units]

theorem update_quorum_ownUnit (e : HookEvent) (s : CharmState) :
    (update_quorum e s).ownUnit = s.ownUnit := by
  unfold update_quorum
  split
  · rfl
  · split
    · rw [maybe_recompute_ownUnit, mark_init_leader_ownUnit]
    · rw [update_client_data_ownUnit, encryption_phase_ownUnit, maybe_recompute_ownUnit,
        mark_init_leader_ownUnit]

theorem update_quorum_isLeader (e : HookEvent) (s : CharmState) :
    (update_quorum e s).isLeader = s.isLeader := by
  unfold update_quorum
  split
  · rfl
  · split
    · rw [maybe_recompute_isLeader, mark_init_leader_isLeader]
    · rw [update_client_data_isLeader, encryption_phase_isLeader, maybe_recompute_isLeader,
        mark_init_leader_isLeader]

theorem update_quorum_membership (e : HookEvent) (s : CharmState)
    (hg : (!s.isLeader || departing_is_self e s) = false) :
    (update_quorum e s).cluster.membership =
      (maybe_recompute e (mark_init_leader s)).cluster.membership := by
  unfold update_quorum
  rw [if_neg (by simp [hg])]
  split
  · rfl
  · rw [update_client_data_cluster, encryption_phase_membership]

theorem set_quorum_mode_self (t : CharmState)
    (h : t.cluster.quorum = (if t.cluster.tls then "ssl" else "non-ssl")) :
    set_quorum_mode t = t := by
  unfold set_quorum_mode
  by_cases ht : t.cluster.tls = true
  · rw [if_pos ht]
    exact withQuorum_self t _ (by rw [h, if_pos ht])
  · rw [if_neg ht]
    exact withQuorum_self t _ (by rw [h, if_neg ht])

theorem stable_parts (t : CharmState) (h : stable t = true) :
    stale_quorum t = false ∧ all_units_related t = true
      ∧ (t.cluster.switchingEncryption = false ∨ all_units_quorum t = true) := by
  unfold stable at h
  rcases Bool.and_eq_true_iff.mp h with ⟨h1, h3⟩
  rcases Bool.and_eq_true_iff.mp h1 with ⟨h1a, h1b⟩
  refine ⟨by simpa using h1a, h1b, ?_⟩
  rcases Bool.or_eq_true_iff.mp h3 with h4 | h4
  · exact Or.inl (by simpa using h4)
  · exact Or.inr h4

theorem stable_build (t : CharmState) (h1 : stale_quorum t = false)
    (h2 : all_units_related t = true)
    (h3 : t.cluster.switchingEncryption = false ∨ all_units_quorum t = true) :
    stable t = true := by
  unfold stable
  rw [h1, h2]
  rcases h3 with h4 | h4 <;> simp [h4]

theorem encryption_phase_fix2 (t : CharmState)
    (hU : all_units_unified t = true)
    (hq : t.cluster.quorum = (if t.cluster.tls then "ssl" else "non-ssl"))
    (hsw : all_units_quorum t = true → t.cluster.switchingEncryption = false) :
    encryption_phase t = t := by
  have hset : set_quorum_mode t = t := set_quorum_mode_self t hq
  unfold encryption_phase
  rw [if_pos hU, hset]
  by_cases hQ : all_units_quorum t = true
  · rw [if_pos hQ]
    exact withSwitching_self t false (hsw hQ)
  · rw [if_neg hQ]

theorem update_quorum_phase_fix (e : HookEvent) (s : CharmState)
    (hg : (!s.isLeader || departing_is_self e s) = false)
    (hstF : stable (update_quorum e s) = true) :
    update_client_data (encryption_phase (update_quorum e s)) = update_quorum e s := by
  have hFdef : update_quorum e s =
      (if !stable (maybe_recompute e (mark_init_leader s)) then
        maybe_recompute e (mark_init_leader s)
      else update_client_data (encryption_phase (maybe_recompute e (mark_init_leader s)))) := by
    unfold update_quorum
    rw [if_neg (by simp [hg])]
  by_cases hst2 : stable (maybe_recompute e (mark_init_leader s)) = true
  · have hFv : update_quorum e s =
        update_client_data (encryption_phase (maybe_recompute e (mark_init_leader s))) := by
      rw [hFdef, if_neg (by rw [hst2]; simp)]
    by_cases hU : all_units_unified (maybe_recompute e (mark_init_leader s)) = true
    · by_cases hQ : all_units_quorum (set_quorum_mode (maybe_recompute e (mark_init_leader s))) = true
      · have hep : encryption_phase (maybe_recompute e (mark_init_leader s)) =
            withSwitching (set_quorum_mode (maybe_recompute e (mark_init_leader s))) false := by
          unfold encryption_phase
          rw [if_pos hU, if_pos hQ]
        rw [hep] at hFv
        rw [hFv]
        have hunits : (update_client_data (withSwitching
            (set_quorum_mode (maybe_recompute e (mark_init_leader s))) false)).units =
            (maybe_recompute e (mark_init_leader s)).units := by
          rw [update_client_data_units, withSwitching_units, set_quorum_mode_units]
        have hq2 : (update_client_data (withSwitching
            (set_quorum_mode (maybe_recompute e (mark_init_leader s))) false)).cluster.quorum =
            (if (maybe_recompute e (mark_init_leader s)).cluster.tls then "ssl" else "non-ssl") := by
          rw [update_client_data_cluster, withSwitching_quorum, set_quorum_mode_quorum]
        have htls2 : (update_client_data (withSwitching
            (set_quorum_mode (maybe_recompute e (mark_init_leader s))) false)).cluster.tls =
            (maybe_recompute e (mark_init_leader s)).cluster.tls := by
          rw [update_client_data_cluster, withSwitching_tls, set_quorum_mode_tls]
        have hswF : (update_client_data (withSwitching
            (set_quorum_mode (maybe_recompute e (mark_init_leader s))) false)).cluster.switchingEncryption
            = false := by
          rw [update_client_data_cluster, withSwitching_switching]
        have hep2 : encryption_phase (update_client_data (withSwitching
            (set_quorum_mode (maybe_recompute e (mark_init_leader s))) false)) =
            update_client_data (withSwitching
              (set_quorum_mode (maybe_recompute e (mark_init_leader s))) false) :=
          encryption_phase_fix2 _
            (by rw [all_units_unified_congr (maybe_recompute e (mark_init_leader s)) _ hunits]; exact hU)
            (by rw [hq2, htls2]) (fun _ => hswF)
        rw [hep2]
        exact update_client_data_idem _
      · have hQf : all_units_quorum (set_quorum_mode (maybe_recompute e (mark_init_leader s))) = false := by
          simpa using hQ
        have hep : encryption_phase (maybe_recompute e (mark_init_leader s)) =
            set_quorum_mode (maybe_recompute e (mark_init_leader s)) := by
          unfold encryption_phase
          rw [if_pos hU, if_neg (by rw [hQf]; simp)]
        rw [hep] at hFv
        by_cases hS : (maybe_recompute e (mark_init_leader s)).cluster.switchingEncryption = true
        · exfalso
          rw [hFv] at hstF
          have hsw2 : (update_client_data (set_quorum_mode
              (maybe_recompute e (mark_init_leader s)))).cluster.switchingEncryption = true := by
            rw [update_client_data_cluster, set_quorum_mode_switching]
            exact hS
          have hq3 : all_units_quorum (update_client_data (set_quorum_mode
              (maybe_recompute e (mark_init_leader s)))) = false := by
            rw [all_units_quorum_congr (set_quorum_mode (maybe_recompute e (mark_init_leader s))) _
              (by rw [update_client_data_units]) (by rw [update_client_data_cluster])]
            exact hQf
          unfold stable at hstF
          rw [hsw2, hq3] at hstF
          simp at hstF
        · have hSf : (maybe_recompute e (mark_init_leader s)).cluster.switchingEncryption = false := by
            simpa using hS
          rw [hFv]
          have hunits : (update_client_data (set_quorum_mode
              (maybe_recompute e (mark_init_leader s)))).units =
              (maybe_recompute e (mark_init_leader s)).units := by
            rw [update_client_data_units, set_quorum_mode_units]
          have hq2 : (update_client_data (set_quorum_mode
              (maybe_recompute e (mark_init_leader s)))).cluster.quorum =
              (if (maybe_recompute e (mark_init_leader s)).cluster.tls then "ssl" else "non-ssl") := by
            rw [update_client_data_cluster, set_quorum_mode_quorum]
          have htls2 : (update_client_data (set_quorum_mode
              (maybe_recompute e (mark_init_leader s)))).cluster.tls =
              (maybe_recompute e (mark_init_leader s)).cluster.tls := by
            rw [update_client_data_cluster, set_quorum_mode_tls]
          have hswF : (update_client_data (set_quorum_mode
              (maybe_recompute e (mark_init_leader s)))).cluster.switchingEncryption = false := by
            rw [update_client_data_cluster, set_quorum_mode_switching]
            exact hSf
          have hep2 : encryption_phase (update_client_data (set_quorum_mode
              (maybe_recompute e (mark_init_leader s)))) =
              update_client_data (set_quorum_mode (maybe_recompute e (mark_init_leader s))) :=
            encryption_phase_fix2 _
              (by rw [all_units_unified_congr (maybe_recompute e (mark_init_leader s)) _ hunits]; exact hU)
              (by rw [hq2, htls2]) (fun _ => hswF)
          rw [hep2]
          exact update_client_data_idem _
    · have hUf : all_units_unified (maybe_recompute e (mark_init_leader s)) = false := by
        simpa using hU
      have hep : encryption_phase (maybe_recompute e (mark_init_leader s)) =
          maybe_recompute e (mark_init_leader s) := by
        unfold encryption_phase
        rw [if_neg (by rw [hUf]; simp)]
      rw [hep] at hFv
      rw [hFv]
      have hUF : all_units_unified (update_client_data (maybe_recompute e (mark_init_leader s))) = false := by
        rw [all_units_unified_congr (maybe_recompute e (mark_init_leader s)) _ (update_client_data_units _)]
        exact hUf
      have hep2 : encryption_phase (update_client_data (maybe_recompute e (mark_init_leader s))) =
          update_client_data (maybe_recompute e (mark_init_leader s)) := by
        unfold encryption_phase
        rw [if_neg (by rw [hUF]; simp)]
      rw [hep2]
      exact update_client_data_idem _
  · have hs2 : stable (maybe_recompute e (mark_init_leader s)) = false := by
      simpa using hst2
    rw [hFdef, if_pos (by rw [hs2]; rfl)] at hstF
    rw [hs2] at hstF
    cases hstF

theorem update_quorum_eq (e : HookEvent) (s : CharmState) :
    update_quorum e s =
      if !s.isLeader || departing_is_self e s then s
      else
        if !stable (maybe_recompute e (mark_init_leader s)) then
          maybe_recompute e (mark_init_leader s)
        else update_client_data (encryption_phase (maybe_recompute e (mark_init_leader s))) := rfl

/-- C3: the coordinator's quorum-update operation is idempotent — for
every cluster state and event, running `update_quorum` twice with no
external state change between the two calls leaves the state identical
to running it once. -/
theorem claim_c3_update_quorum_idempotent (e : HookEvent) (s : CharmState) :
    update_quorum e (update_quorum e s) = update_quorum e s := by
  by_cases hg : (!s.isLeader || departing_is_self e s) = true
  · have h1 : update_quorum e s = s := by
      unfold update_quorum
      rw [if_pos hg]
    rw [h1, h1]
  · have hg' : (!s.isLeader || departing_is_self e s) = false := by
      simpa using hg
    have hgF : (!(update_quorum e s).isLeader || departing_is_self e (update_quorum e s)) = false := by
      rw [update_quorum_isLeader,
        departing_is_self_congr e s (update_quorum e s) (update_quorum_ownUnit e s)]
      exact hg'
    have hmarkF : mark_init_leader (update_quorum e s) = update_quorum e s := by
      apply mark_init_leader_noop
      intro u hu hst
      rw [update_quorum_membership e s hg']
      rw [init_leader_congr s (update_quorum e s) (update_quorum_units e s)] at hu
      exact init_leader_marked e s u hu hst
    have hrecF : maybe_recompute e (update_quorum e s) = update_quorum e s :=
      maybe_recompute_fix e (mark_init_leader s) (update_quorum e s)
        (by rw [update_quorum_units, mark_init_leader_units])
        (update_quorum_membership e s hg')
    rw [update_quorum_eq e (update_quorum e s)]
    rw [if_neg (by simp [hgF]), hmarkF, hrecF]
    by_cases hstF : stable (update_quorum e s) = true
    · rw [if_neg (by rw [hstF]; simp)]
      exact update_quorum_phase_fix e s hg' hstF
    · have h2 : stable (update_quorum e s) = false := by
        simpa using hstF
      rw [if_pos (by rw [h2]; rfl)]

/-- C1: in a coordinator reconciliation pass, when the cluster is stable
at the stability gate and every node's unified flag is true, the target
quorum mode is set to `ssl` if the certificate relationship is present
and to `non-ssl` otherwise; when some node's unified flag is false the
target mode is left unchanged. -/
theorem claim_c1_quorum_mode_flip (e : HookEvent) (s : CharmState)
    (h1 : s.isLeader = true) (h2 : departing_is_self e s = false) :
    (update_quorum e s).cluster.quorum =
      if stable (maybe_recompute e (mark_init_leader s)) && all_units_unified s then
        (if s.cluster.tls then "ssl" else "non-ssl")
      else s.cluster.quorum := by
  have hg : (!s.isLeader || departing_is_self e s) = false := by
    rw [h1, h2]
    rfl
  rw [update_quorum_eq, if_neg (by simp [hg])]
  have hUc : all_units_unified (maybe_recompute e (mark_init_leader s)) = all_units_unified s :=
    all_units_unified_congr s _ (by rw [maybe_recompute_units, mark_init_leader_units])
  have htls : (maybe_recompute e (mark_init_leader s)).cluster.tls = s.cluster.tls := by
    rw [maybe_recompute_tls, mark_init_leader_tls]
  have hqpre : (maybe_recompute e (mark_init_leader s)).cluster.quorum = s.cluster.quorum := by
    rw [maybe_recompute_quorum, mark_init_leader_quorum]
  by_cases hst : stable (maybe_recompute e (mark_init_leader s)) = true
  · by_cases hU : all_units_unified s = true
    · rw [if_neg (by rw [hst]; simp), if_pos (by rw [hst, hU]; rfl)]
      rw [update_client_data_cluster]
      have hU2 : all_units_unified (maybe_recompute e (mark_init_leader s)) = true := by
        rw [hUc]
        exact hU
      unfold encryption_phase
      rw [if_pos hU2]
      split
      · rw [withSwitching_quorum, set_quorum_mode_quorum, htls]
      · rw [set_quorum_mode_quorum, htls]
    · have hUf : all_units_unified s = false := by
        simpa using hU
      rw [if_neg (by rw [hst]; simp), if_neg (by rw [hst, hUf]; simp)]
      rw [update_client_data_cluster]
      unfold encryption_phase
      rw [if_neg (by rw [hUc, hUf]; simp)]
      exact hqpre
  · have hstf : stable (maybe_recompute e (mark_init_leader s)) = false := by
      simpa using hst
    rw [if_pos (by rw [hstf]; rfl), if_neg (by rw [hstf]; simp)]
    exact hqpre

/-- Witness for C1 at a concrete stable, all-unified, certificate-present
state: the target mode comes out as `ssl`. -/
theorem claim_c1_witness :
    exSwitchDone.isLeader = true
      ∧ departing_is_self HookEvent.updateStatus exSwitchDone = false
      ∧ (update_quorum HookEvent.updateStatus exSwitchDone).cluster.quorum =
          (if stable (maybe_recompute HookEvent.updateStatus (mark_init_leader exSwitchDone))
              && all_units_unified exSwitchDone then
            (if exSwitchDone.cluster.tls then "ssl" else "non-ssl")
          else exSwitchDone.cluster.quorum) :=
  ⟨by decide, by decide,
    claim_c1_quorum_mode_flip HookEvent.updateStatus exSwitchDone (by decide) (by decide)⟩

/-- C2: if the switching-encryption flag was set and a quorum-update pass
cleared it, then every node's reported `quorum` field equals the pass's
newly-set target mode. -/
theorem claim_c2_switch_cleared_only_when_all_quorum (e : HookEvent) (s : CharmState)
    (h1 : s.cluster.switchingEncryption = true)
    (h2 : (update_quorum e s).cluster.switchingEncryption = false) :
    all_units_quorum (update_quorum e s) = true := by
  by_cases hg : (!s.isLeader || departing_is_self e s) = true
  · rw [update_quorum_eq, if_pos hg] at h2
    rw [h1] at h2
    cases h2
  · have hg' : (!s.isLeader || departing_is_self e s) = false := by
      simpa using hg
    have hsw2 : (maybe_recompute e (mark_init_leader s)).cluster.switchingEncryption = true := by
      rw [maybe_recompute_switching, mark_init_leader_switching]
      exact h1
    rw [update_quorum_eq, if_neg (by simp [hg'])] at h2 ⊢
    by_cases hst : stable (maybe_recompute e (mark_init_leader s)) = true
    · rw [if_neg (by rw [hst]; simp)] at h2 ⊢
      rw [update_client_data_cluster] at h2
      by_cases hU : all_units_unified (maybe_recompute e (mark_init_leader s)) = true
      · by_cases hQ : all_units_quorum (set_quorum_mode (maybe_recompute e (mark_init_leader s))) = true
        · have hep : encryption_phase (maybe_recompute e (mark_init_leader s)) =
              withSwitching (set_quorum_mode (maybe_recompute e (mark_init_leader s))) false := by
            unfold encryption_phase
            rw [if_pos hU, if_pos hQ]
          rw [hep]
          rw [all_units_quorum_congr (set_quorum_mode (maybe_recompute e (mark_init_leader s))) _
            (by rw [update_client_data_units, withSwitching_units])
            (by rw [update_client_data_cluster, withSwitching_quorum])]
          exact hQ
        · exfalso
          have hep : encryption_phase (maybe_recompute e (mark_init_leader s)) =
              set_quorum_mode (maybe_recompute e (mark_init_leader s)) := by
            unfold encryption_phase
            rw [if_pos hU, if_neg hQ]
          rw [hep, set_quorum_mode_switching, hsw2] at h2
          cases h2
      · exfalso
        have hep : encryption_phase (maybe_recompute e (mark_init_leader s)) =
            maybe_recompute e (mark_init_leader s) := by
          unfold encryption_phase
          rw [if_neg hU]
        rw [hep, hsw2] at h2
        cases h2
    · exfalso
      have hstf : stable (maybe_recompute e (mark_init_leader s)) = false := by
        simpa using hst
      rw [if_pos (by rw [hstf]; rfl)] at h2
      rw [hsw2] at h2
      cases h2

/-- Witness for C2 at a concrete state whose quorum-update pass clears
the switching-encryption flag. -/
theorem claim_c2_witness :
    exSwitchDone.cluster.switchingEncryption = true
      ∧ (update_quorum HookEvent.updateStatus exSwitchDone).cluster.switchingEncryption = false
      ∧ all_units_quorum (update_quorum HookEvent.updateStatus exSwitchDone) = true :=
  ⟨by decide, by decide,
    claim_c2_switch_cleared_only_when_all_quorum HookEvent.updateStatus exSwitchDone
      (by decide) (by decide)⟩

/-- C4: in a coordinator reconciliation pass, a started init leader
(the lowest unit id) is marked "added" in the shared membership set,
with no stability, relatedness or predecessor hypothesis. -/
theorem claim_c4_init_leader_added (e : HookEvent) (s : CharmState)
    (h1 : s.isLeader = true) (h2 : departing_is_self e s = false)
    (u : UnitState) (h3 : init_leader s = some u) (h4 : u.started = true) :
    u.unitId ∈ (update_quorum e s).cluster.membership := by
  have hg : (!s.isLeader || departing_is_self e s) = false := by
    rw [h1, h2]
    rfl
  rw [update_quorum_membership e s hg]
  exact init_leader_marked e s u h3 h4

theorem set_own_unit_ownUnit (s : CharmState) (f : UnitState → UnitState) :
    (set_own_unit s f).ownUnit = s.ownUnit := rfl

theorem init_server_ownUnit (s : CharmState) :
    (init_server s).ownUnit = s.ownUnit := by
  unfold init_server
  split
  · rfl
  · split
    · rfl
    · split
      · rfl
      · rfl

theorem lock_decision_state_ownUnit (e : HookEvent) (s : CharmState) :
    (lock_decision_state e s).ownUnit = s.ownUnit := by
  unfold lock_decision_state
  rw [update_quorum_ownUnit]
  split
  · rfl
  · rw [init_server_ownUnit]

/-- C6: a departure event whose departing unit is the handling node
itself never emits the restart-lock acquisition signal. -/
theorem claim_c6_no_restart_signal_for_own_departure (e : HookEvent) (s : CharmState)
    (h : departing_is_self e s = true) :
    (on_cluster_relation_changed e s).lockRequested = false := by
  have hd : departing_is_self e (lock_decision_state e s) = true := by
    rw [departing_is_self_congr e s _ (lock_decision_state_ownUnit e s)]
    exact h
  unfold on_cluster_relation_changed
  by_cases ha : (!s.workloadAlive) = true
  · rw [if_pos ha]
  · rw [if_neg ha]
    by_cases hp : (!s.peerRelation) = true
    · rw [if_pos hp]
    · rw [if_neg hp, if_pos hd]

/-- Witness for C6: a two-unit state processing the departure of its own
unit emits no restart-lock signal. -/
theorem claim_c6_witness :
    departing_is_self (HookEvent.relationDeparted (some exSwitchDone.ownUnit)) exSwitchDone = true
      ∧ (on_cluster_relation_changed
          (HookEvent.relationDeparted (some exSwitchDone.ownUnit)) exSwitchDone).lockRequested
          = false :=
  ⟨by decide,
    claim_c6_no_restart_signal_for_own_departure
      (HookEvent.relationDeparted (some exSwitchDone.ownUnit)) exSwitchDone (by decide)⟩

/-- C5 as stated is false: this not-yet-started unit has a changed
materialized config and a set switching-encryption flag (both before and
at the lock decision point), yet its changed event requests no restart
lock, because the lock is only requested once the unit's server has
started. -/
theorem claim_c5_counterexample :
    config_changed exNotStarted = true
      ∧ exNotStarted.cluster.switchingEncryption = true
      ∧ config_changed (lock_decision_state HookEvent.relationChanged exNotStarted) = true
      ∧ (lock_decision_state
          HookEvent.relationChanged exNotStarted).cluster.switchingEncryption = true
      ∧ exNotStarted.workloadAlive = true
      ∧ exNotStarted.peerRelation = true
      ∧ (on_cluster_relation_changed HookEvent.relationChanged exNotStarted).lockRequested
          = false := by
  decide

/-- C5 (amended): for every changed event that reaches the lock decision
(workload alive, peer relation present, not the node's own departure),
the restart lock is requested iff, at the decision point after the
in-event server-init and quorum-update steps, the materialized config
differs from the applied config or the switching-encryption flag is set,
and the unit's server has started. -/
theorem claim_c5_lock_request_condition (e : HookEvent) (s : CharmState)
    (h1 : s.workloadAlive = true) (h2 : s.peerRelation = true)
    (h3 : departing_is_self e s = false) :
    (on_cluster_relation_changed e s).lockRequested =
      ((config_changed (lock_decision_state e s)
          || (lock_decision_state e s).cluster.switchingEncryption)
        && unit_started (lock_decision_state e s)) := by
  have hd : departing_is_self e (lock_decision_state e s) = false := by
    rw [departing_is_self_congr e s _ (lock_decision_state_ownUnit e s)]
    exact h3
  unfold on_cluster_relation_changed
  rw [if_neg (by rw [h1]; simp), if_neg (by rw [h2]; simp), if_neg (by rw [hd]; simp)]

/-- Witness for C5 (amended) at a concrete ready single-node state. -/
theorem claim_c5_witness :
    exReady.workloadAlive = true
      ∧ exReady.peerRelation = true
      ∧ departing_is_self HookEvent.relationChanged exReady = false
      ∧ (on_cluster_relation_changed HookEvent.relationChanged exReady).lockRequested =
          ((config_changed (lock_decision_state HookEvent.relationChanged exReady)
              || (lock_decision_state
                    HookEvent.relationChanged exReady).cluster.switchingEncryption)
            && unit_started (lock_decision_state HookEvent.relationChanged exReady)) :=
  ⟨by decide, by decide, by decide,
    claim_c5_lock_request_condition HookEvent.relationChanged exReady
      (by decide) (by decide) (by decide)⟩

/-- C10: when the cluster is not stable, the restart callback defers the
event and performs no mutation at all — no workload restart, and none of
the unit-scope flags are written. -/
theorem claim_c10_restart_atomic_when_unstable (s : CharmState) (h : stable s = false) :
    restart_handler s = { state := s, deferred := true, restarted := false } := by
  unfold restart_handler
  rw [if_pos (by rw [h]; rfl)]

/-- Witness for C10 at a concrete unstable state. -/
theorem claim_c10_witness :
    stable exUnstable = false
      ∧ restart_handler exUnstable =
          { state := exUnstable, deferred := true, restarted := false } :=
  ⟨by decide, claim_c10_restart_atomic_when_unstable exUnstable (by decide)⟩

/-- C9: client connection data is written only when the cluster is ready
and this unit is the leader; in that case every client with a
provisioned password gets exactly the computed connection payload and
every client with an absent password is left untouched, with the rest of
the state unchanged. -/
theorem claim_c9_client_data_gating (s : CharmState) :
    ((ready s = false ∨ s.isLeader = false) → update_client_data s = s)
      ∧ (ready s = true → s.isLeader = true →
          (update_client_data s).clients = s.clients.map (publish_one s)
            ∧ (update_client_data s).cluster = s.cluster
            ∧ (update_client_data s).units = s.units)
      ∧ (∀ c, c.password = none → publish_one s c = c)
      ∧ (∀ c, c.password ≠ none →
          publish_one s c = { c with published := some (client_payload s c) }) := by
  refine ⟨?_, ?_, ?_, ?_⟩
  · intro h
    unfold update_client_data
    rcases h with h | h <;> rw [if_neg (by rw [h]; simp)]
  · intro hr hl
    refine ⟨?_, update_client_data_cluster s, update_client_data_units s⟩
    unfold update_client_data
    rw [if_pos (by rw [hr, hl]; rfl)]
  · intro c hc
    unfold publish_one
    rw [if_neg (by rw [hc]; simp)]
  · intro c hc
    unfold publish_one
    rw [if_pos (Option.isSome_iff_ne_none.mpr hc)]

/-- Witness for C9: at a ready leader state the provisioned client gets
its payload and the unprovisioned client is skipped; at an unstable
state nothing is written. -/
theorem claim_c9_witness :
    ready exReady = true
      ∧ exReady.isLeader = true
      ∧ (update_client_data exReady).clients = exReady.clients.map (publish_one exReady)
      ∧ ready exUnstable = false
      ∧ update_client_data exUnstable = exUnstable :=
  ⟨by decide, by decide,
    ((claim_c9_client_data_gating exReady).2.1 (by decide) (by decide)).1,
    by decide,
    (claim_c9_client_data_gating exUnstable).1 (Or.inl (by decide))⟩

theorem retryReraise_ok_iff (f : Nat → Except UpgradeFailure Unit) (a n : Nat) :
    retryReraise f a n = Except.ok () ↔
      ∃ i, a ≤ i ∧ i ≤ a + n ∧ f i = Except.ok ()
        ∧ ∀ j, a ≤ j → j < i → f j ≠ Except.ok () := by
  induction n generalizing a with
  | zero =>
    simp only [retryReraise]
    constructor
    · intro h
      exact ⟨a, le_refl a, by omega, h, fun j hj1 hj2 => by omega⟩
    · rintro ⟨i, hi1, hi2, hok, _⟩
      have hia : i = a := by omega
      subst hia
      exact hok
  | succ n ih =>
    simp only [retryReraise]
    cases hfa : f a with
    | ok u =>
      cases u
      constructor
      · intro _
        exact ⟨a, le_refl a, by omega, hfa, fun j hj1 hj2 => by omega⟩
      · intro _
        rfl
    | error ex =>
      rw [ih (a + 1)]
      constructor
      · rintro ⟨i, h1, h2, hok, hb⟩
        refine ⟨i, by omega, by omega, hok, fun j hj1 hj2 => ?_⟩
        rcases Nat.eq_or_lt_of_le hj1 with hj | hj
        · subst hj
          rw [hfa]
          intro hcon
          cases hcon
        · exact hb j (by omega) hj2
      · rintro ⟨i, h1, h2, hok, hb⟩
        have hia : i ≠ a := by
          intro hh
          subst hh
          rw [hfa] at hok
          cases hok
        exact ⟨i, by omega, by omega, hok, fun j hj1 hj2 => hb j (by omega) hj2⟩

/-- C7: the retried upgrade check succeeds iff one of the first five
attempts passes (after the earlier ones failed); equivalently a failure
is declared only when all five attempts have failed. -/
theorem claim_c7_five_attempts (obs : Nat → AttemptObs) :
    post_upgrade_check obs = Except.ok () ↔
      ∃ i, 1 ≤ i ∧ i ≤ 5 ∧ post_upgrade_check_body (obs i) = Except.ok ()
        ∧ ∀ j, 1 ≤ j → j < i → post_upgrade_check_body (obs j) ≠ Except.ok () := by
  unfold post_upgrade_check
  rw [retryReraise_ok_iff]

/-- Witness for C7: a probe that fails transiently on attempts 1 and 2
and holds from attempt 3 on makes the retried check succeed. -/
theorem claim_c7_witness :
    post_upgrade_check_body (exObs 1) ≠ Except.ok ()
      ∧ post_upgrade_check_body (exObs 3) = Except.ok ()
      ∧ post_upgrade_check exObs = Except.ok () :=
  ⟨by decide, by decide,
    (claim_c7_five_attempts exObs).mpr ⟨3, by decide, by decide, by decide, by
      intro j h1 h2
      interval_cases j <;> decide⟩⟩

/-- C8: the claim is right and the code is wrong.  The three explicit
`ClusterNotReadyError` raises sit inside the `try` block, so the blanket
`except Exception` catches them and re-raises with the generic
"Unknown error" cause: on a probe reporting `members_broadcasting` false
the try body constructs the specific broadcasting cause, yet
`pre_upgrade_check` surfaces "Unknown error".  The two named probe
exceptions do keep their specific causes. -/
theorem claim_c8_specific_cause_swallowed :
    pre_check_try_body
        { membersBroadcasting := Except.ok false, serverMembersCount := Except.ok 1,
          membersSyncing := Except.ok false } exReady =
      Except.error (TryExc.clusterNotReady preCheckMessage
        "Not all application units are connected and broadcasting in the quorum")
      ∧ pre_upgrade_check false KubePatch.ok
          { membersBroadcasting := Except.ok false, serverMembersCount := Except.ok 1,
            membersSyncing := Except.ok false } exReady =
        Except.error (UpgradeFailure.clusterNotReady preCheckMessage "Unknown error")
      ∧ pre_upgrade_check false KubePatch.ok
          { membersBroadcasting := Except.error ZkExc.quorumLeaderNotFound,
            serverMembersCount := Except.ok 1, membersSyncing := Except.ok false } exReady =
        Except.error (UpgradeFailure.clusterNotReady preCheckMessage "Quorum leader not found") := by
  decide

/-- Witness for C4: in a state that is neither related nor stable (the
lone unit has no address) but whose init leader has started, the pass
still marks the init leader added. -/
theorem claim_c4_witness :
    exC4.isLeader = true
      ∧ departing_is_self HookEvent.relationChanged exC4 = false
      ∧ init_leader exC4 = some exC4Unit
      ∧ exC4Unit.started = true
      ∧ exC4Unit.unitId ∈ (update_quorum HookEvent.relationChanged exC4).cluster.membership :=
  ⟨by decide, by decide, by decide, by decide,
    claim_c4_init_leader_added HookEvent.relationChanged exC4 (by decide) (by decide)
      exC4Unit (by decide) (by decide)⟩

end ZkCharm
